import Mathlib

/-!
Shallow embedding of `salt/states/restconf.py` (the `config_manage` state
function and its `_restDiff` helper), together with theorems settling the
specification claims about it.

Modelling conventions:
  - Python/JSON values are the inductive `Val`; mapping keys are `Key`
    (string or integer keys, the ones JSON serialisation affects).
  - The device client (`restconf.get_data` / `restconf.set_data` from
    `__salt__`) is an explicit `Device` record of pure functions.
  - The Salt option `__opts__["test"]` is an explicit boolean `test`.
  - `config_manage` returns, besides the Python return value, the full
    trace of device reads and writes and the number of diff computations,
    so that claims about I/O ("never invokes the write operation") are
    statements about the returned trace.
  - Python's `return False` on validation failure versus returning the
    `ret` dict is modelled by the sum type `RetVal`.
-/

/-- A mapping key as Python allows it in a `dict` that is later passed
through `json.dumps`: a string key or an integer key. -/
inductive Key where
  | s : String → Key
  | i : Int → Key
deriving DecidableEq, Repr

/-- A Python/JSON-style value: `None`, booleans, integers, strings,
lists, and dicts (association lists of key/value pairs). -/
inductive Val where
  | null : Val
  | b : Bool → Val
  | i : Int → Val
  | str : String → Val
  | list : List Val → Val
  | obj : List (Key × Val) → Val
deriving Repr

/-- First-match association-list lookup, the model of Python `d[k]` /
`k in d` for dicts represented as entry lists. -/
def lookupV : List (Key × Val) → Key → Option Val
  | [], _ => none
  | (k, v) :: rest, k2 => if k = k2 then some v else lookupV rest k2

/-- Key uniqueness of an entry list: Python dicts never hold two entries
with the same key. -/
def keysND : List (Key × Val) → Bool
  | [] => true
  | (k, _) :: rest => (lookupV rest k).isNone && keysND rest

mutual
/-- Well-formedness of a value as a Python object: every nested dict has
pairwise distinct keys (always true of actual Python dicts). -/
def wfVal : Val → Bool
  | .null => true
  | .b _ => true
  | .i _ => true
  | .str _ => true
  | .list xs => wfList xs
  | .obj kvs => keysND kvs && wfObjVals kvs

/-- All members of a list are well-formed. -/
def wfList : List Val → Bool
  | [] => true
  | x :: xs => wfVal x && wfList xs

/-- All values of an entry list are well-formed. -/
def wfObjVals : List (Key × Val) → Bool
  | [] => true
  | (_, v) :: rest => wfVal v && wfObjVals rest
end

mutual
/-- Python `==` on the modelled values (the comparison
`existing == dict_config` at line 127 of the source): deep, structural,
order-insensitive for dicts, with no numeric/string coercion between
distinct constructors.  For dicts it is the Python criterion "same
length and every key of the left dict maps to an equal value in the
right dict" (equivalent to dict equality when keys are unique, which
Python guarantees). -/
def pyEq : Val → Val → Bool
  | .null, .null => true
  | .b x, .b y => x == y
  | .i m, .i n => m == n
  | .str a, .str c => a == c
  | .list xs, .list ys => pyEqList xs ys
  | .obj a, .obj c => a.length == c.length && pyEqObjL a c
  | _, _ => false

/-- Pointwise `pyEq` on lists (Python list `==`). -/
def pyEqList : List Val → List Val → Bool
  | [], [] => true
  | x :: xs, y :: ys => pyEq x y && pyEqList xs ys
  | _, _ => false

/-- Every entry of the first list is present, with `pyEq`-equal value,
in the second list. -/
def pyEqObjL : List (Key × Val) → List (Key × Val) → Bool
  | [], _ => true
  | (k, v) :: rest, other =>
      (match lookupV other k with
        | some v2 => pyEq v v2
        | none => false) && pyEqObjL rest other
end

/-- How `json.dumps` renders a non-string dict key: integer keys become
their decimal string form. -/
def jsonKeyStr : Key → String
  | .s s => s
  | .i n => toString n

mutual
/-- The JSON round trip `json.loads(json.dumps(v))` at line 123 of the
source, on the modelled value domain: dict keys are coerced to strings,
everything else is preserved.  (Key collisions introduced by the
coercion, which `json.loads` would collapse, are kept as-is; actual
Python dicts with such colliding keys are outside the claims.) -/
def roundTrip : Val → Val
  | .null => .null
  | .b x => .b x
  | .i n => .i n
  | .str s => .str s
  | .list xs => .list (roundTripList xs)
  | .obj kvs => .obj (roundTripObj kvs)

/-- `roundTrip` mapped over a list. -/
def roundTripList : List Val → List Val
  | [] => []
  | x :: xs => roundTrip x :: roundTripList xs

/-- `roundTrip` mapped over dict entries, coercing keys to strings. -/
def roundTripObj : List (Key × Val) → List (Key × Val)
  | [] => []
  | (k, v) :: kvs => (Key.s (jsonKeyStr k), roundTrip v) :: roundTripObj kvs
end

/-- `type(config) is dict` (line 89 of the source). -/
def isDict : Val → Bool
  | .obj _ => true
  | _ => false

/-- The single-quote character, used by Python `repr` of strings. -/
def squote : String := (Char.ofNat 39).toString

/-- Python `repr` of a dict key (string keys quoted, int keys plain). -/
def pyReprKey : Key → String
  | .s s => squote ++ s ++ squote
  | .i n => toString n

mutual
/-- Python `repr` of a modelled value (how a dict/list body is rendered
inside `str.format`), on the escape-free value domain. -/
def pyRepr : Val → String
  | .null => "None"
  | .b true => "True"
  | .b false => "False"
  | .i n => toString n
  | .str s => squote ++ s ++ squote
  | .list xs => "[" ++ pyReprList xs ++ "]"
  | .obj kvs => "\x7b" ++ pyReprObj kvs ++ "\x7d"

/-- Comma-separated `repr` of list members. -/
def pyReprList : List Val → String
  | [] => ""
  | [x] => pyRepr x
  | x :: xs => pyRepr x ++ ", " ++ pyReprList xs

/-- Comma-separated `repr` of dict entries. -/
def pyReprObj : List (Key × Val) → String
  | [] => ""
  | [(k, v)] => pyReprKey k ++ ": " ++ pyRepr v
  | (k, v) :: kvs => pyReprKey k ++ ": " ++ pyRepr v ++ ", " ++ pyReprObj kvs
end

/-- Python `str` of a modelled value: strings render bare, everything
else as its `repr`. -/
def pyStr : Val → String
  | .str s => s
  | .null => pyRepr .null
  | .b x => pyRepr (.b x)
  | .i n => pyRepr (.i n)
  | .list xs => pyRepr (.list xs)
  | .obj kvs => pyRepr (.obj kvs)

/-- Python `str` of an optional value (`str(None) = "None"`). -/
def pyStrOpt : Option Val → String
  | none => "None"
  | some v => pyStr v

/-- Modelled from the spec: the Structural Diff Engine's "added" view
(spec 4.1), replacing the third-party `DeepDiff` library that the source
class `_restDiff` delegates to and that is not part of this repository:
top-level keys reachable in `desired` but not in `current`, with their
values. -/
def diffAdded (current desired : List (Key × Val)) : List (Key × Val) :=
  desired.filter (fun kv => (lookupV current kv.1).isNone)

/-- Modelled from the spec: the Structural Diff Engine's "removed" view
(spec 4.1): top-level keys reachable in `current` but not in `desired`,
with their values. -/
def diffRemoved (current desired : List (Key × Val)) : List (Key × Val) :=
  current.filter (fun kv => (lookupV desired kv.1).isNone)

/-- Modelled from the spec: the Structural Diff Engine's "changed" view
(spec 4.1): keys present in both whose values differ by deep equality,
reported with the old and new value. -/
def diffChanged (current desired : List (Key × Val)) : List (Key × Val × Val) :=
  current.filterMap (fun kv =>
    match lookupV desired kv.1 with
    | some v2 => if pyEq kv.2 v2 then none else some (kv.1, kv.2, v2)
    | none => none)

/-- Top-level dict entries of a value (non-dicts have none). -/
def topEntries : Val → List (Key × Val)
  | .obj kvs => kvs
  | _ => []

/-- The source's `_restDiff.added()`: `None` when the diff has no added
items, otherwise the added view (the `DeepDiff` computation itself is
modelled from the spec, see `diffAdded`). -/
def restDiff_added (current desired : Val) : Option (List (Key × Val)) :=
  let l := diffAdded (topEntries current) (topEntries desired)
  if l.isEmpty then none else some l

/-- The source's `_restDiff.removed()`: `None` when the diff has no
removed items, otherwise the removed view (see `diffRemoved`). -/
def restDiff_removed (current desired : Val) : Option (List (Key × Val)) :=
  let l := diffRemoved (topEntries current) (topEntries desired)
  if l.isEmpty then none else some l

/-- The source's `_restDiff.changed()`: `None` when the diff has no
changed values, otherwise the changed view (see `diffChanged`). -/
def restDiff_changed (current desired : Val) : Option (List (Key × Val × Val)) :=
  let l := diffChanged (topEntries current) (topEntries desired)
  if l.isEmpty then none else some l

/-- Response of `restconf.get_data`: a status code and the parsed body
(the `"dict"` entry the source reads on status 200). -/
structure GetResponse where
  status : Int
  dict : Val

/-- Response of `restconf.set_data`: a status code and the optional
`"dict"` and `"body"` entries whose presence the source tests. -/
structure SetResponse where
  status : Int
  dict : Option Val
  body : Option Val

/-- The device client collaborator: the `__salt__["restconf.get_data"]`
and `__salt__["restconf.set_data"]` functions, as pure functions.  The
URI argument is optional because the source passes `init_uri`, which can
be Python `None`, straight through. -/
structure Device where
  get_data : Option String → GetResponse
  set_data : Option String → String → Val → SetResponse

/-- The `why` selection of the failure branch (lines 154-159): the
response's `"dict"` entry if present, else its `"body"` entry if
present, else `None`. -/
def respWhy (r : SetResponse) : Option Val :=
  match r.dict with
  | some d => some d
  | none => r.body

/-- The failure comment of lines 160-164:
`"failed to add / modify config. API Statuscode: {s}, API Response: {w}, URI:{u}"`
with the status, the `why` value and the URI source formatted in. -/
def failComment (status : Int) (why : Option Val) (uri_used : String) : String :=
  "failed to add / modify config. API Statuscode: " ++ toString status ++
    ", API Response: " ++ pyStrOpt why ++ ", URI:" ++ uri_used

/-- The `ret["changes"]` dict once populated: the `"new"`, `"removed"`
and `"changed"` entries, each holding the corresponding `_restDiff` view
(`none` models Python `None`). -/
structure ChangeSet where
  new : Option (List (Key × Val))
  removed : Option (List (Key × Val))
  changed : Option (List (Key × Val × Val))

/-- The `ret` dict of `config_manage`: `result` is `some true` /
`some false` / `none` for Python `True` / `False` / `None`; `changes`
is `none` while the changes dict is still empty (`{}`). -/
structure Ret where
  name : String
  result : Option Bool
  changes : Option ChangeSet
  comment : String

/-- What `config_manage` returns: the bare boolean `False` on validation
failure, or the `ret` dict. -/
inductive RetVal where
  | bool : Bool → RetVal
  | ret : Ret → RetVal

/-- Observable outcome of one `config_manage` invocation: the Python
return value plus the trace of device reads (URIs passed to
`get_data`), device writes (arguments passed to `set_data`) and the
number of `_restDiff` computations performed. -/
structure CMOutput where
  retval : RetVal
  reads : List (Option String)
  writes : List (Option String × String × Val)
  diffCalls : Nat

/-- URI resolution (lines 95-115): read the primary URI; on status 200
use its body, source tag `"Primary"`, and the caller's uri/method as the
write target.  Otherwise read `init_uri` (even when it is `None`); on
status 200 use that body, source tag `"init"`, and `init_uri` /
`init_method` as the write target.  Otherwise unresolved. -/
def resolveState (dev : Device) (uri method : String) (init_uri : Option String)
    (init_method : String) : Option (Val × String × Option String × String) :=
  let r1 := dev.get_data (some uri)
  if r1.status = 200 then
    some (r1.dict, "Primary", some uri, method)
  else
    let r2 := dev.get_data init_uri
    if r2.status = 200 then
      some (r2.dict, "init", init_uri, init_method)
    else
      none

/-- The state function `config_manage` of `salt/states/restconf.py`
(lines 40-167), with the device client and the `__opts__["test"]` flag
passed explicitly and the I/O trace made part of the result.  `name`,
`uri` and `method` are taken after the source's `str()` coercions. -/
def config_manage (dev : Device) (test : Bool) (name uri method : String)
    (config : Val) (init_uri : Option String) (init_method : String) : CMOutput :=
  if uri = "" then ⟨.bool false, [], [], 0⟩
  else if name = "" then ⟨.bool false, [], [], 0⟩
  else if method = "" then ⟨.bool false, [], [], 0⟩
  else if !(isDict config) then ⟨.bool false, [], [], 0⟩
  else
    let reads : List (Option String) :=
      if (dev.get_data (some uri)).status = 200 then [some uri]
      else [some uri, init_uri]
    match resolveState dev uri method init_uri init_method with
    | none =>
        ⟨.ret ⟨name, some false, none,
          "restconf could not find a working URI to get initial config"⟩,
         reads, [], 0⟩
    | some (existing, uri_used, request_uri, request_method) =>
        let dict_config := roundTrip config
        if pyEq existing dict_config then
          ⟨.ret ⟨name, some true, none, "Config is already set"⟩, reads, [], 0⟩
        else if test then
          ⟨.ret ⟨name, none,
            some ⟨restDiff_added existing dict_config,
                  restDiff_removed existing dict_config,
                  restDiff_changed existing dict_config⟩,
            "Config will be added"⟩, reads, [], 1⟩
        else
          let resp := dev.set_data request_uri request_method dict_config
          if resp.status = 201 ∨ resp.status = 200 ∨ resp.status = 204 then
            ⟨.ret ⟨name, some true,
              some ⟨restDiff_added existing dict_config,
                    (if method = "PATCH" then none
                     else restDiff_removed existing dict_config),
                    restDiff_changed existing dict_config⟩,
              "Successfully added config"⟩, reads,
             [(request_uri, request_method, dict_config)], 1⟩
          else
            ⟨.ret ⟨name, some false, none,
              failComment resp.status (respWhy resp) uri_used⟩, reads,
             [(request_uri, request_method, dict_config)], 0⟩

/-- The string `needle` occurs contiguously inside `hay`. -/
def strContains (hay needle : String) : Prop :=
  ∃ p q : String, hay = p ++ needle ++ q

theorem lookupV_isSome_of_mem {l : List (Key × Val)} {k : Key} {v : Val}
    (h : (k, v) ∈ l) : (lookupV l k).isNone = false := by
  induction l with
  | nil => cases h
  | cons kv rest ih =>
      obtain ⟨k1, v1⟩ := kv
      rcases List.mem_cons.mp h with h1 | h1
      · cases h1
        simp [lookupV]
      · by_cases hk : k1 = k
        · simp [lookupV, hk]
        · simp only [lookupV, if_neg hk]
          exact ih h1

theorem mem_lookupV {l : List (Key × Val)} {k : Key} {v : Val}
    (hnd : keysND l = true) (h : (k, v) ∈ l) : lookupV l k = some v := by
  induction l with
  | nil => cases h
  | cons kv rest ih =>
      obtain ⟨k1, v1⟩ := kv
      simp only [keysND, Bool.and_eq_true] at hnd
      rcases List.mem_cons.mp h with h1 | h1
      · cases h1
        simp [lookupV]
      · by_cases hk : k1 = k
        · subst hk
          have h2 := lookupV_isSome_of_mem h1
          rw [hnd.1] at h2
          cases h2
        · simp only [lookupV, if_neg hk]
          exact ih hnd.2 h1

theorem lookupV_append_of_some {l l2 : List (Key × Val)} {k : Key} {v : Val}
    (h : lookupV l k = some v) : lookupV (l ++ l2) k = some v := by
  induction l with
  | nil => simp [lookupV] at h
  | cons kv rest ih =>
      obtain ⟨k1, v1⟩ := kv
      by_cases hk : k1 = k
      · simp only [lookupV, if_pos hk] at h ⊢
        exact h
      · simp only [lookupV, if_neg hk] at h ⊢
        exact ih h

theorem pyEqObjL_of_forall (sub whole : List (Key × Val))
    (h : ∀ kv ∈ sub, ∃ v2, lookupV whole kv.1 = some v2 ∧ pyEq kv.2 v2 = true) :
    pyEqObjL sub whole = true := by
  induction sub with
  | nil => rfl
  | cons kv rest ih =>
      obtain ⟨k, v⟩ := kv
      obtain ⟨v2, hl, he⟩ := h (k, v) (List.mem_cons_self _ _)
      simp only [pyEqObjL, hl, Bool.and_eq_true]
      exact ⟨he, ih (fun kv hm => h kv (List.mem_cons_of_mem _ hm))⟩

mutual
theorem pyEq_refl (v : Val) (h : wfVal v = true) : pyEq v v = true := by
  cases v with
  | null => rfl
  | b x => simp [pyEq]
  | i n => simp [pyEq]
  | str s => simp [pyEq]
  | list xs =>
      simp only [pyEq]
      exact pyEqList_refl xs (by simpa [wfVal] using h)
  | obj kvs =>
      simp only [wfVal, Bool.and_eq_true] at h
      simp only [pyEq, Bool.and_eq_true, beq_self_eq_true, true_and]
      exact pyEqObjL_of_forall kvs kvs
        (fun kv hm => ⟨kv.2, mem_lookupV h.1 (by simpa using hm),
          pyEq_refl_objVals kvs h.2 kv hm⟩)

theorem pyEqList_refl (xs : List Val) (h : wfList xs = true) :
    pyEqList xs xs = true := by
  cases xs with
  | nil => rfl
  | cons x rest =>
      simp only [wfList, Bool.and_eq_true] at h
      simp only [pyEqList, Bool.and_eq_true]
      exact ⟨pyEq_refl x h.1, pyEqList_refl rest h.2⟩

theorem pyEq_refl_objVals (kvs : List (Key × Val)) (h : wfObjVals kvs = true) :
    ∀ kv ∈ kvs, pyEq kv.2 kv.2 = true := by
  cases kvs with
  | nil => intro kv hm; cases hm
  | cons kv0 rest =>
      obtain ⟨k0, v0⟩ := kv0
      simp only [wfObjVals, Bool.and_eq_true] at h
      intro kv hm
      rcases List.mem_cons.mp hm with h1 | h1
      · cases h1
        exact pyEq_refl v0 h.1
      · exact pyEq_refl_objVals rest h.2 kv h1
end

mutual
theorem roundTrip_idem (v : Val) : roundTrip (roundTrip v) = roundTrip v := by
  cases v with
  | null => rfl
  | b x => rfl
  | i n => rfl
  | str s => rfl
  | list xs => simp only [roundTrip, roundTripList_idem xs]
  | obj kvs => simp only [roundTrip, roundTripObj_idem kvs]

theorem roundTripList_idem (xs : List Val) :
    roundTripList (roundTripList xs) = roundTripList xs := by
  cases xs with
  | nil => rfl
  | cons x rest =>
      simp only [roundTripList, roundTrip_idem x, roundTripList_idem rest]

theorem roundTripObj_idem (kvs : List (Key × Val)) :
    roundTripObj (roundTripObj kvs) = roundTripObj kvs := by
  cases kvs with
  | nil => rfl
  | cons kv rest =>
      obtain ⟨k, v⟩ := kv
      simp only [roundTripObj, roundTrip_idem v, roundTripObj_idem rest,
        jsonKeyStr]
end

theorem isDict_roundTrip (v : Val) : isDict (roundTrip v) = isDict v := by
  cases v <;> rfl

theorem strContains_intro (p needle q : String) :
    strContains (p ++ needle ++ q) needle := ⟨p, q, rfl⟩

theorem strContains_suffix (p needle : String) :
    strContains (p ++ needle) needle :=
  ⟨p, "", by rw [String.append_assoc, String.append_empty]⟩

/-- C1: for every request and device state, invoking `config_manage` with
the test/dry-run option set to `true` never invokes the device client's
write operation (`restconf.set_data`), regardless of validation, URI
resolution, or whether the current configuration equals the desired one
(proved without any hypothesis: in dry-run mode the write trace is empty
on every path). -/
theorem config_manage_dry_run_never_writes (dev : Device) (name uri method : String)
    (config : Val) (init_uri : Option String) (init_method : String) :
    (config_manage dev true name uri method config init_uri init_method).writes = [] := by
  unfold config_manage
  dsimp only
  repeat' split
  all_goals first | rfl | simp_all

/-- Device that answers every read with status 200 and body `{}` and
every write with status 200. -/
def devEmpty200 : Device :=
  ⟨fun _ => ⟨200, Val.obj []⟩, fun _ _ _ => ⟨200, none, none⟩⟩

/-- C2 counterexample: an invocation whose `config` is the empty mapping
`{}` — which the claim says must fail validation with no device I/O —
in fact passes validation, performs a device read, and returns the
success result "Config is already set" (the empty dict satisfies
`type(config) is dict`, the only config check the code makes). -/
theorem config_manage_empty_mapping_config_performs_io :
    (config_manage devEmpty200 false "n" "/a" "PUT" (Val.obj []) none "PATCH").reads
        = [some "/a"]
      ∧ (config_manage devEmpty200 false "n" "/a" "PUT" (Val.obj []) none "PATCH").retval
        = .ret ⟨"n", some true, none, "Config is already set"⟩
      ∧ ([some "/a"] : List (Option String)) ≠ [] := by
  refine ⟨rfl, rfl, by simp⟩

/-- C2 (amended): an invocation whose request fails the code's
validation — empty `uri`, empty `name`, empty `method`, or a `config`
that is not a dict — performs no device I/O and no diff computation and
returns the bare boolean `False` (with only a critical log message, not
a result mapping); an empty mapping, however, passes validation. -/
theorem config_manage_validation_failure_returns_false
    (dev : Device) (test : Bool) (name uri method : String) (config : Val)
    (init_uri : Option String) (init_method : String)
    (h : uri = "" ∨ name = "" ∨ method = "" ∨ isDict config = false) :
    config_manage dev test name uri method config init_uri init_method
      = ⟨.bool false, [], [], 0⟩ := by
  unfold config_manage
  rcases h with h | h | h | h <;> (repeat' split) <;> simp_all

/-- C2 witness: the amended validation theorem applied to a concrete
blank-uri request. -/
theorem config_manage_validation_failure_returns_false_witness :
    config_manage devEmpty200 false "n" "" "PUT" (Val.obj [(Key.s "x", Val.i 1)])
        none "PATCH"
      = ⟨.bool false, [], [], 0⟩ :=
  config_manage_validation_failure_returns_false devEmpty200 false "n" "" "PUT"
    (Val.obj [(Key.s "x", Val.i 1)]) none "PATCH" (Or.inl rfl)

/-- C4: whenever URI resolution succeeds and the resolved current
configuration is deeply equal (Python `==`) to the JSON round trip of
the desired configuration, the result is the success outcome
"Config is already set" with empty changes, and no write and no diff
computation occur. -/
theorem config_manage_already_matching_no_write
    (dev : Device) (test : Bool) (name uri method : String) (config : Val)
    (init_uri : Option String) (init_method : String)
    (existing : Val) (uri_used : String) (request_uri : Option String)
    (request_method : String)
    (hu : uri ≠ "") (hn : name ≠ "") (hm : method ≠ "") (hc : isDict config = true)
    (hres : resolveState dev uri method init_uri init_method
      = some (existing, uri_used, request_uri, request_method))
    (heq : pyEq existing (roundTrip config) = true) :
    (config_manage dev test name uri method config init_uri init_method).retval
        = .ret ⟨name, some true, none, "Config is already set"⟩
      ∧ (config_manage dev test name uri method config init_uri init_method).writes = []
      ∧ (config_manage dev test name uri method config init_uri init_method).diffCalls
        = 0 := by
  unfold config_manage
  rw [if_neg hu, if_neg hn, if_neg hm, if_neg (by simp [hc]), hres]
  simp [heq]

/-- Device whose reads return `{"x": 1}` with status 200 and whose
writes return status 204. -/
def devMatch : Device :=
  ⟨fun _ => ⟨200, Val.obj [(Key.s "x", Val.i 1)]⟩, fun _ _ _ => ⟨204, none, none⟩⟩

/-- C4 witness: the already-matching theorem applied to the spec's
scenario `request{name="iface1", uri="/a", method="PUT", config={"x":1}}`
with `read("/a") → {status: 200, body: {"x": 1}}`. -/
theorem config_manage_already_matching_no_write_witness :
    (config_manage devMatch false "iface1" "/a" "PUT"
          (Val.obj [(Key.s "x", Val.i 1)]) none "PATCH").retval
        = .ret ⟨"iface1", some true, none, "Config is already set"⟩
      ∧ (config_manage devMatch false "iface1" "/a" "PUT"
          (Val.obj [(Key.s "x", Val.i 1)]) none "PATCH").writes = []
      ∧ (config_manage devMatch false "iface1" "/a" "PUT"
          (Val.obj [(Key.s "x", Val.i 1)]) none "PATCH").diffCalls = 0 :=
  config_manage_already_matching_no_write devMatch false "iface1" "/a" "PUT"
    (Val.obj [(Key.s "x", Val.i 1)]) none "PATCH"
    (Val.obj [(Key.s "x", Val.i 1)]) "Primary" (some "/a") "PUT"
    (by decide) (by decide) (by decide) rfl rfl rfl

/-- C5: when the primary read and the fallback read both return a
non-200 status, the result is the unresolved outcome with the source's
message, no write is invoked and no diff is computed. -/
theorem config_manage_both_reads_fail_unresolved
    (dev : Device) (test : Bool) (name uri method : String) (config : Val)
    (init_uri : Option String) (init_method : String)
    (hu : uri ≠ "") (hn : name ≠ "") (hm : method ≠ "") (hc : isDict config = true)
    (h1 : (dev.get_data (some uri)).status ≠ 200)
    (h2 : (dev.get_data init_uri).status ≠ 200) :
    (config_manage dev test name uri method config init_uri init_method).retval
        = .ret ⟨name, some false, none,
            "restconf could not find a working URI to get initial config"⟩
      ∧ (config_manage dev test name uri method config init_uri init_method).writes = []
      ∧ (config_manage dev test name uri method config init_uri init_method).diffCalls
        = 0 := by
  unfold config_manage resolveState
  rw [if_neg hu, if_neg hn, if_neg hm, if_neg (by simp [hc])]
  simp [if_neg h1, if_neg h2]

/-- Device whose every read returns status 404. -/
def devNotFound : Device :=
  ⟨fun _ => ⟨404, Val.null⟩, fun _ _ _ => ⟨204, none, none⟩⟩

/-- C5 witness: the unresolved theorem applied to a device answering 404
on both the primary and the fallback URI. -/
theorem config_manage_both_reads_fail_unresolved_witness :
    (config_manage devNotFound false "n" "/a" "PUT"
          (Val.obj [(Key.s "x", Val.i 1)]) (some "/b") "PATCH").retval
        = .ret ⟨"n", some false, none,
            "restconf could not find a working URI to get initial config"⟩
      ∧ (config_manage devNotFound false "n" "/a" "PUT"
          (Val.obj [(Key.s "x", Val.i 1)]) (some "/b") "PATCH").writes = []
      ∧ (config_manage devNotFound false "n" "/a" "PUT"
          (Val.obj [(Key.s "x", Val.i 1)]) (some "/b") "PATCH").diffCalls = 0 :=
  config_manage_both_reads_fail_unresolved devNotFound false "n" "/a" "PUT"
    (Val.obj [(Key.s "x", Val.i 1)]) (some "/b") "PATCH"
    (by decide) (by decide) (by decide) rfl (by decide) (by decide)

/-- C7 counterexample: with no fallback URI provided (`init_uri = None`)
and a failing primary read, the code still performs a second read,
passing `None` to `get_data` — the read trace has two entries, not one,
contradicting the claim that no second read is performed. -/
theorem config_manage_second_read_without_fallback :
    (config_manage devNotFound false "n" "/a" "PUT"
          (Val.obj [(Key.s "x", Val.i 1)]) none "PATCH").reads
        = [some "/a", none]
      ∧ ([some "/a", none] : List (Option String)) ≠ [some "/a"] := by
  refine ⟨rfl, by simp⟩

/-- C7 (amended): whenever the primary read does not return status 200,
a second read is always attempted, with the `init_uri` value passed
through as-is — including the `None` of an absent fallback; the
invocation proceeds to the unresolved outcome only if that second read
also fails. -/
theorem config_manage_fallback_read_always_attempted
    (dev : Device) (test : Bool) (name uri method : String) (config : Val)
    (init_uri : Option String) (init_method : String)
    (hu : uri ≠ "") (hn : name ≠ "") (hm : method ≠ "") (hc : isDict config = true)
    (h1 : (dev.get_data (some uri)).status ≠ 200) :
    (config_manage dev test name uri method config init_uri init_method).reads
      = [some uri, init_uri] := by
  unfold config_manage
  rw [if_neg hu, if_neg hn, if_neg hm, if_neg (by simp [hc])]
  simp only [if_neg h1]
  repeat' split
  all_goals rfl

/-- C7 witness: the amended theorem applied to a 404-answering device
with no fallback URI. -/
theorem config_manage_fallback_read_always_attempted_witness :
    (config_manage devNotFound false "n" "/a" "PUT"
        (Val.obj [(Key.s "x", Val.i 1)]) none "PATCH").reads
      = [some "/a", none] :=
  config_manage_fallback_read_always_attempted devNotFound false "n" "/a" "PUT"
    (Val.obj [(Key.s "x", Val.i 1)]) none "PATCH"
    (by decide) (by decide) (by decide) rfl (by decide)

/-- C3 counterexample: a dry-run (`test = true`) invocation with method
PATCH whose diff has removed keys reports them in `changes["removed"]` —
the PATCH suppression of lines 149-150 runs only in the applied branch,
so the `removed` view is not absent in a dry-run result that reports
changes, contradicting the claim. -/
theorem config_manage_patch_dry_run_reports_removed :
    (config_manage devMatch true "n" "/a" "PATCH"
          (Val.obj [(Key.s "y", Val.i 2)]) none "PATCH").retval
        = .ret ⟨"n", none,
            some ⟨some [(Key.s "y", Val.i 2)], some [(Key.s "x", Val.i 1)], none⟩,
            "Config will be added"⟩
      ∧ (some [(Key.s "x", Val.i 1)] : Option (List (Key × Val))) ≠ none := by
  refine ⟨rfl, by simp⟩

/-- C3 (amended): for method PATCH, the `removed` view of the reported
changes is forced to absent only when the outcome is applied (successful
write); in a dry-run (test) result the `removed` view is reported
exactly as the diff engine computed it. -/
theorem config_manage_patch_removed_suppressed_only_when_applied
    (dev : Device) (name uri : String) (config : Val)
    (init_uri : Option String) (init_method : String)
    (existing : Val) (uri_used : String) (request_uri : Option String)
    (request_method : String)
    (hu : uri ≠ "") (hn : name ≠ "") (hc : isDict config = true)
    (hres : resolveState dev uri "PATCH" init_uri init_method
      = some (existing, uri_used, request_uri, request_method))
    (hne : pyEq existing (roundTrip config) = false) :
    (config_manage dev true name uri "PATCH" config init_uri init_method).retval
        = .ret ⟨name, none,
            some ⟨restDiff_added existing (roundTrip config),
                  restDiff_removed existing (roundTrip config),
                  restDiff_changed existing (roundTrip config)⟩,
            "Config will be added"⟩
      ∧ (((dev.set_data request_uri request_method (roundTrip config)).status = 201
            ∨ (dev.set_data request_uri request_method (roundTrip config)).status = 200
            ∨ (dev.set_data request_uri request_method (roundTrip config)).status = 204) →
          (config_manage dev false name uri "PATCH" config init_uri init_method).retval
            = .ret ⟨name, some true,
                some ⟨restDiff_added existing (roundTrip config), none,
                      restDiff_changed existing (roundTrip config)⟩,
                "Successfully added config"⟩) := by
  constructor
  · unfold config_manage
    rw [if_neg hu, if_neg hn, if_neg (by decide : ¬("PATCH" = "")),
      if_neg (by simp [hc]), hres]
    simp [hne]
  · intro hs
    unfold config_manage
    rw [if_neg hu, if_neg hn, if_neg (by decide : ¬("PATCH" = "")),
      if_neg (by simp [hc]), hres]
    simp [hne, hs]

/-- C3 witness: the amended theorem applied to a device holding
`{"x": 1}` with desired config `{"y": 2}` and method PATCH. -/
theorem config_manage_patch_removed_suppressed_only_when_applied_witness :
    (config_manage devMatch true "n" "/a" "PATCH"
          (Val.obj [(Key.s "y", Val.i 2)]) none "PATCH").retval
        = .ret ⟨"n", none,
            some ⟨restDiff_added (Val.obj [(Key.s "x", Val.i 1)])
                    (roundTrip (Val.obj [(Key.s "y", Val.i 2)])),
                  restDiff_removed (Val.obj [(Key.s "x", Val.i 1)])
                    (roundTrip (Val.obj [(Key.s "y", Val.i 2)])),
                  restDiff_changed (Val.obj [(Key.s "x", Val.i 1)])
                    (roundTrip (Val.obj [(Key.s "y", Val.i 2)]))⟩,
            "Config will be added"⟩
      ∧ (((devMatch.set_data (some "/a") "PATCH"
              (roundTrip (Val.obj [(Key.s "y", Val.i 2)]))).status = 201
            ∨ (devMatch.set_data (some "/a") "PATCH"
                (roundTrip (Val.obj [(Key.s "y", Val.i 2)]))).status = 200
            ∨ (devMatch.set_data (some "/a") "PATCH"
                (roundTrip (Val.obj [(Key.s "y", Val.i 2)]))).status = 204) →
          (config_manage devMatch false "n" "/a" "PATCH"
              (Val.obj [(Key.s "y", Val.i 2)]) none "PATCH").retval
            = .ret ⟨"n", some true,
                some ⟨restDiff_added (Val.obj [(Key.s "x", Val.i 1)])
                        (roundTrip (Val.obj [(Key.s "y", Val.i 2)])), none,
                      restDiff_changed (Val.obj [(Key.s "x", Val.i 1)])
                        (roundTrip (Val.obj [(Key.s "y", Val.i 2)]))⟩,
                "Successfully added config"⟩) :=
  config_manage_patch_removed_suppressed_only_when_applied devMatch "n" "/a"
    (Val.obj [(Key.s "y", Val.i 2)]) none "PATCH"
    (Val.obj [(Key.s "x", Val.i 1)]) "Primary" (some "/a") "PATCH"
    (by decide) (by decide) rfl rfl rfl

/-- C8: a PATCH invocation whose write succeeds (status 201, 200 or 204)
and whose diff computation includes removed keys still reports the
`removed` view as absent, while `new` (added) and `changed` are reported
as computed, and exactly one write was issued. -/
theorem config_manage_patch_applied_suppresses_removed
    (dev : Device) (name uri : String) (config : Val)
    (init_uri : Option String) (init_method : String)
    (existing : Val) (uri_used : String) (request_uri : Option String)
    (request_method : String)
    (hu : uri ≠ "") (hn : name ≠ "") (hc : isDict config = true)
    (hres : resolveState dev uri "PATCH" init_uri init_method
      = some (existing, uri_used, request_uri, request_method))
    (hne : pyEq existing (roundTrip config) = false)
    (hs : (dev.set_data request_uri request_method (roundTrip config)).status = 201
        ∨ (dev.set_data request_uri request_method (roundTrip config)).status = 200
        ∨ (dev.set_data request_uri request_method (roundTrip config)).status = 204)
    (hrem : restDiff_removed existing (roundTrip config) ≠ none) :
    (config_manage dev false name uri "PATCH" config init_uri init_method).retval
        = .ret ⟨name, some true,
            some ⟨restDiff_added existing (roundTrip config), none,
                  restDiff_changed existing (roundTrip config)⟩,
            "Successfully added config"⟩
      ∧ (config_manage dev false name uri "PATCH" config init_uri init_method).writes
        = [(request_uri, request_method, roundTrip config)] := by
  unfold config_manage
  rw [if_neg hu, if_neg hn, if_neg (by decide : ¬("PATCH" = "")),
    if_neg (by simp [hc]), hres]
  simp [hne, hs]

/-- C8 witness: the suppression theorem applied to a device holding
`{"x": 1}` with desired config `{"y": 2}`, method PATCH, write status
204, where the diff's removed view is `{"x": 1}` (non-absent). -/
theorem config_manage_patch_applied_suppresses_removed_witness :
    (config_manage devMatch false "n" "/a" "PATCH"
          (Val.obj [(Key.s "y", Val.i 2)]) none "PATCH").retval
        = .ret ⟨"n", some true,
            some ⟨restDiff_added (Val.obj [(Key.s "x", Val.i 1)])
                    (roundTrip (Val.obj [(Key.s "y", Val.i 2)])), none,
                  restDiff_changed (Val.obj [(Key.s "x", Val.i 1)])
                    (roundTrip (Val.obj [(Key.s "y", Val.i 2)]))⟩,
            "Successfully added config"⟩
      ∧ (config_manage devMatch false "n" "/a" "PATCH"
          (Val.obj [(Key.s "y", Val.i 2)]) none "PATCH").writes
        = [(some "/a", "PATCH", roundTrip (Val.obj [(Key.s "y", Val.i 2)]))] :=
  config_manage_patch_applied_suppresses_removed devMatch "n" "/a"
    (Val.obj [(Key.s "y", Val.i 2)]) none "PATCH"
    (Val.obj [(Key.s "x", Val.i 1)]) "Primary" (some "/a") "PATCH"
    (by decide) (by decide) rfl rfl rfl (Or.inr (Or.inr rfl))
    (by
      have h : restDiff_removed (Val.obj [(Key.s "x", Val.i 1)])
          (roundTrip (Val.obj [(Key.s "y", Val.i 2)]))
          = some [(Key.s "x", Val.i 1)] := rfl
      simp [h])

theorem failComment_contains_status (s : Int) (w : Option Val) (u : String) :
    strContains (failComment s w u) (toString s) :=
  ⟨"failed to add / modify config. API Statuscode: ",
   ", API Response: " ++ pyStrOpt w ++ ", URI:" ++ u,
   by simp [failComment, String.append_assoc]⟩

theorem failComment_contains_source (s : Int) (w : Option Val) (u : String) :
    strContains (failComment s w u) u :=
  ⟨"failed to add / modify config. API Statuscode: " ++ toString s
      ++ ", API Response: " ++ pyStrOpt w ++ ", URI:", "",
   by simp [failComment, String.append_assoc, String.append_empty]⟩

theorem failComment_contains_body (s : Int) (d : Val) (u : String) :
    strContains (failComment s (some d) u) (pyStr d) :=
  ⟨"failed to add / modify config. API Statuscode: " ++ toString s
      ++ ", API Response: ",
   ", URI:" ++ u, by simp [failComment, pyStrOpt, String.append_assoc]⟩

/-- C6: when the write operation returns a status other than 200, 201
and 204, the result has the failure outcome (`result = False`), its
comment is the source's diagnostic message — containing the returned
status code, the response body selected by the `dict`/`body` fallback
when present, and the URI source that was used — and no diff is
computed or reported in changes. -/
theorem config_manage_write_failure_reports_diagnostics
    (dev : Device) (name uri method : String) (config : Val)
    (init_uri : Option String) (init_method : String)
    (existing : Val) (uri_used : String) (request_uri : Option String)
    (request_method : String)
    (hu : uri ≠ "") (hn : name ≠ "") (hm : method ≠ "") (hc : isDict config = true)
    (hres : resolveState dev uri method init_uri init_method
      = some (existing, uri_used, request_uri, request_method))
    (hne : pyEq existing (roundTrip config) = false)
    (hs : ¬((dev.set_data request_uri request_method (roundTrip config)).status = 201
        ∨ (dev.set_data request_uri request_method (roundTrip config)).status = 200
        ∨ (dev.set_data request_uri request_method (roundTrip config)).status = 204)) :
    (config_manage dev false name uri method config init_uri init_method).retval
        = .ret ⟨name, some false, none,
            failComment (dev.set_data request_uri request_method (roundTrip config)).status
              (respWhy (dev.set_data request_uri request_method (roundTrip config)))
              uri_used⟩
      ∧ (config_manage dev false name uri method config init_uri init_method).diffCalls
        = 0
      ∧ strContains
          (failComment (dev.set_data request_uri request_method (roundTrip config)).status
            (respWhy (dev.set_data request_uri request_method (roundTrip config))) uri_used)
          (toString (dev.set_data request_uri request_method (roundTrip config)).status)
      ∧ strContains
          (failComment (dev.set_data request_uri request_method (roundTrip config)).status
            (respWhy (dev.set_data request_uri request_method (roundTrip config))) uri_used)
          uri_used
      ∧ ∀ d : Val,
          respWhy (dev.set_data request_uri request_method (roundTrip config)) = some d →
          strContains
            (failComment (dev.set_data request_uri request_method (roundTrip config)).status
              (respWhy (dev.set_data request_uri request_method (roundTrip config))) uri_used)
            (pyStr d) := by
  refine ⟨?_, ?_, failComment_contains_status _ _ _, failComment_contains_source _ _ _, ?_⟩
  · unfold config_manage
    rw [if_neg hu, if_neg hn, if_neg hm, if_neg (by simp [hc]), hres]
    simp [hne, hs]
  · unfold config_manage
    rw [if_neg hu, if_neg hn, if_neg hm, if_neg (by simp [hc]), hres]
    simp [hne, hs]
  · intro d hd
    rw [hd]
    exact failComment_contains_body _ _ _

/-- Device whose reads return `{}` with status 200 and whose writes fail
with status 500 and parsed body `{"error": "bad"}`. -/
def devWriteFail : Device :=
  ⟨fun _ => ⟨200, Val.obj []⟩,
   fun _ _ _ => ⟨500, some (Val.obj [(Key.s "error", Val.str "bad")]), none⟩⟩

/-- C6 witness: the write-failure theorem applied to the spec's scenario
`write → {status: 500, body: {"error": "bad"}}`. -/
theorem config_manage_write_failure_reports_diagnostics_witness :
    (config_manage devWriteFail false "n" "/a" "PUT"
          (Val.obj [(Key.s "x", Val.i 1)]) none "PATCH").retval
        = .ret ⟨"n", some false, none,
            failComment (devWriteFail.set_data (some "/a") "PUT"
                (roundTrip (Val.obj [(Key.s "x", Val.i 1)]))).status
              (respWhy (devWriteFail.set_data (some "/a") "PUT"
                (roundTrip (Val.obj [(Key.s "x", Val.i 1)])))) "Primary"⟩
      ∧ (config_manage devWriteFail false "n" "/a" "PUT"
          (Val.obj [(Key.s "x", Val.i 1)]) none "PATCH").diffCalls = 0
      ∧ strContains
          (failComment (devWriteFail.set_data (some "/a") "PUT"
              (roundTrip (Val.obj [(Key.s "x", Val.i 1)]))).status
            (respWhy (devWriteFail.set_data (some "/a") "PUT"
              (roundTrip (Val.obj [(Key.s "x", Val.i 1)])))) "Primary")
          (toString (devWriteFail.set_data (some "/a") "PUT"
              (roundTrip (Val.obj [(Key.s "x", Val.i 1)]))).status)
      ∧ strContains
          (failComment (devWriteFail.set_data (some "/a") "PUT"
              (roundTrip (Val.obj [(Key.s "x", Val.i 1)]))).status
            (respWhy (devWriteFail.set_data (some "/a") "PUT"
              (roundTrip (Val.obj [(Key.s "x", Val.i 1)])))) "Primary")
          "Primary"
      ∧ ∀ d : Val,
          respWhy (devWriteFail.set_data (some "/a") "PUT"
              (roundTrip (Val.obj [(Key.s "x", Val.i 1)]))) = some d →
          strContains
            (failComment (devWriteFail.set_data (some "/a") "PUT"
                (roundTrip (Val.obj [(Key.s "x", Val.i 1)]))).status
              (respWhy (devWriteFail.set_data (some "/a") "PUT"
                (roundTrip (Val.obj [(Key.s "x", Val.i 1)])))) "Primary")
            (pyStr d) :=
  config_manage_write_failure_reports_diagnostics devWriteFail "n" "/a" "PUT"
    (Val.obj [(Key.s "x", Val.i 1)]) none "PATCH"
    (Val.obj []) "Primary" (some "/a") "PUT"
    (by decide) (by decide) (by decide) rfl rfl rfl (by decide)

/-- C9: for mappings `(current, desired)` where `desired` is `current`
plus exactly one extra key `k` (not present in `current`, keys of
`current` unique and its values well-formed Python dicts), the diff
engine's added view is exactly `[(k, v)]` and its removed and changed
views are empty (reported as absent).  The diff engine is modelled from
the spec (4.1), standing in for the third-party `DeepDiff` library. -/
theorem restDiff_one_extra_key
    (current : List (Key × Val)) (k : Key) (v : Val)
    (hnd : keysND current = true) (hwf : wfObjVals current = true)
    (hk : lookupV current k = none) :
    restDiff_added (.obj current) (.obj (current ++ [(k, v)])) = some [(k, v)]
      ∧ restDiff_removed (.obj current) (.obj (current ++ [(k, v)])) = none
      ∧ restDiff_changed (.obj current) (.obj (current ++ [(k, v)])) = none := by
  have hmemSome : ∀ kv ∈ current, lookupV current kv.1 = some kv.2 := by
    intro kv hm
    exact mem_lookupV hnd (by simpa using hm)
  refine ⟨?_, ?_, ?_⟩
  · have h1 : diffAdded current (current ++ [(k, v)]) = [(k, v)] := by
      unfold diffAdded
      rw [List.filter_append]
      have h2 : current.filter (fun kv => (lookupV current kv.1).isNone) = [] := by
        refine List.filter_eq_nil_iff.mpr ?_
        intro kv hm
        rw [hmemSome kv hm]
        simp
      rw [h2]
      simp [List.filter, hk]
    simp [restDiff_added, topEntries, h1]
  · have h1 : diffRemoved current (current ++ [(k, v)]) = [] := by
      unfold diffRemoved
      refine List.filter_eq_nil_iff.mpr ?_
      intro kv hm
      rw [lookupV_append_of_some (hmemSome kv hm)]
      simp
    simp [restDiff_removed, topEntries, h1]
  · have h1 : diffChanged current (current ++ [(k, v)]) = [] := by
      unfold diffChanged
      refine List.filterMap_eq_nil_iff.mpr ?_
      intro kv hm
      rw [lookupV_append_of_some (hmemSome kv hm)]
      simp [pyEq_refl_objVals current hwf kv hm]
    simp [restDiff_changed, topEntries, h1]

/-- C9 witness: the one-extra-key theorem applied to
`current = {"a": 1}`, extra key `"b"` with value `2`. -/
theorem restDiff_one_extra_key_witness :
    restDiff_added (.obj [(Key.s "a", Val.i 1)])
        (.obj ([(Key.s "a", Val.i 1)] ++ [(Key.s "b", Val.i 2)]))
      = some [(Key.s "b", Val.i 2)]
      ∧ restDiff_removed (.obj [(Key.s "a", Val.i 1)])
          (.obj ([(Key.s "a", Val.i 1)] ++ [(Key.s "b", Val.i 2)])) = none
      ∧ restDiff_changed (.obj [(Key.s "a", Val.i 1)])
          (.obj ([(Key.s "a", Val.i 1)] ++ [(Key.s "b", Val.i 2)])) = none :=
  restDiff_one_extra_key [(Key.s "a", Val.i 1)] (Key.s "b") (Val.i 2)
    rfl rfl rfl

/-- C10: on every invocation, `config_manage` behaves exactly as if the
caller had passed `json.loads(json.dumps(config))` instead of `config`
— the deep-equality comparison against the current state and every
write payload use the JSON round trip of the desired configuration, so
non-string keys are compared and written in their JSON string form
(`roundTrip` coerces keys through `jsonKeyStr`). -/
theorem config_manage_uses_json_roundtrip
    (dev : Device) (test : Bool) (name uri method : String) (config : Val)
    (init_uri : Option String) (init_method : String) :
    config_manage dev test name uri method config init_uri init_method
        = config_manage dev test name uri method (roundTrip config) init_uri init_method
      ∧ (config_manage dev test name uri method config init_uri init_method).writes.map
          (fun w => w.2.2)
        = List.replicate
            (config_manage dev test name uri method config init_uri init_method).writes.length
            (roundTrip config) := by
  constructor
  · unfold config_manage
    rw [isDict_roundTrip, roundTrip_idem]
  · unfold config_manage
    dsimp only
    repeat' split
    all_goals simp
